import Mathlib

/-!
# Verification of the rate-limiting core of `concept-model-protein-classifier`

Shallow embedding of `src/api/app/rate_limiter.py` (the dual-window rate
limiter with its two counter backends: the atomic Redis Lua script and the
in-memory fallback), and of the identity hasher used by the HTTP boundary
(`src/api/app/main.py` / `src/api/app/auth.py`, SHA-256 of the credential).

Modelling conventions:
* machine integers are `Nat`/`Int` (counter values are naturals, TTL report
  values are integers because Redis `TTL` returns `-1`/`-2` sentinels);
* the key-value stores are total functions from key strings; a Redis key
  carries `val : Option Nat` (`none` = absent) and the value `TTL` would
  report at call time;
* the atomic Lua script is a pure state transformer; concurrency is modelled
  by serialising the (atomic) script executions in an arbitrary order;
* a backend error during `redis_client.eval` is modelled by a `fail` flag on
  the call: the Python code catches `redis.RedisError` and returns
  `(True, None, None)`;
* `time.time()` in the fallback path is an external input, modelled as an
  integer timestamp passed per call.
-/

set_option autoImplicit false
set_option maxRecDepth 20000

namespace SHA256

def m32 (x : Nat) : Nat := x % 4294967296

def rotr (n x : Nat) : Nat := m32 ((x >>> n) ||| (x <<< (32 - n)))

def ch (e f g : Nat) : Nat := (e &&& f) ^^^ ((e ^^^ 4294967295) &&& g)

def maj (a b c : Nat) : Nat := (a &&& b) ^^^ (a &&& c) ^^^ (b &&& c)

def bigS0 (a : Nat) : Nat := rotr 2 a ^^^ rotr 13 a ^^^ rotr 22 a

def bigS1 (e : Nat) : Nat := rotr 6 e ^^^ rotr 11 e ^^^ rotr 25 e

def smallS0 (x : Nat) : Nat := rotr 7 x ^^^ rotr 18 x ^^^ (x >>> 3)

def smallS1 (x : Nat) : Nat := rotr 17 x ^^^ rotr 19 x ^^^ (x >>> 10)

def K : List Nat :=
  [1116352408, 1899447441, 3049323471, 3921009573,
   961987163, 1508970993, 2453635748, 2870763221,
   3624381080, 310598401, 607225278, 1426881987,
   1925078388, 2162078206, 2614888103, 3248222580,
   3835390401, 4022224774, 264347078, 604807628,
   770255983, 1249150122, 1555081692, 1996064986,
   2554220882, 2821834349, 2952996808, 3210313671,
   3336571891, 3584528711, 113926993, 338241895,
   666307205, 773529912, 1294757372, 1396182291,
   1695183700, 1986661051, 2177026350, 2456956037,
   2730485921, 2820302411, 3259730800, 3345764771,
   3516065817, 3600352804, 4094571909, 275423344,
   430227734, 506948616, 659060556, 883997877,
   958139571, 1322822218, 1537002063, 1747873779,
   1955562222, 2024104815, 2227730452, 2361852424,
   2428436474, 2756734187, 3204031479, 3329325298]

structure Digest where
  h0 : Nat
  h1 : Nat
  h2 : Nat
  h3 : Nat
  h4 : Nat
  h5 : Nat
  h6 : Nat
  h7 : Nat
deriving Repr, DecidableEq

structure Regs where
  a : Nat
  b : Nat
  c : Nat
  d : Nat
  e : Nat
  f : Nat
  g : Nat
  h : Nat
deriving Repr, DecidableEq

def round (r : Regs) (kw : Nat × Nat) : Regs :=
  let t1 := m32 (r.h + bigS1 r.e + ch r.e r.f r.g + kw.1 + kw.2)
  let t2 := m32 (bigS0 r.a + maj r.a r.b r.c)
  ⟨m32 (t1 + t2), r.a, r.b, r.c, m32 (r.d + t1), r.e, r.f, r.g⟩

def schedule (block : List Nat) : List Nat :=
  (List.range 48).foldl
    (fun w _ =>
      let t := w.length
      w ++ [m32 (smallS1 (w.getD (t - 2) 0) + w.getD (t - 7) 0 +
                 smallS0 (w.getD (t - 15) 0) + w.getD (t - 16) 0)])
    block

def compress (d : Digest) (block : List Nat) : Digest :=
  let w := schedule block
  let r0 : Regs := ⟨d.h0, d.h1, d.h2, d.h3, d.h4, d.h5, d.h6, d.h7⟩
  let r := (K.zip w).foldl round r0
  ⟨m32 (d.h0 + r.a), m32 (d.h1 + r.b), m32 (d.h2 + r.c), m32 (d.h3 + r.d),
   m32 (d.h4 + r.e), m32 (d.h5 + r.f), m32 (d.h6 + r.g), m32 (d.h7 + r.h)⟩

def beBytes (n x : Nat) : List Nat :=
  (List.range n).map (fun i => (x >>> (8 * (n - 1 - i))) % 256)

def pad (msg : List Nat) : List Nat :=
  let zeros := (55 + 64 - msg.length % 64) % 64
  msg ++ [128] ++ List.replicate zeros 0 ++ beBytes 8 (8 * msg.length)

def bytesToWord (b : List Nat) : Nat := b.foldl (fun acc x => 256 * acc + x) 0

def toBlocks (bytes : List Nat) : List (List Nat) :=
  (List.range (bytes.length / 64)).map (fun i =>
    (List.range 16).map (fun j => bytesToWord ((bytes.drop (64 * i + 4 * j)).take 4)))

def initDigest : Digest :=
  ⟨1779033703, 3144134277, 1013904242, 2773480762,
   1359893119, 2600822924, 528734635, 1541459225⟩

def sha256Bytes (msg : List Nat) : Digest := (toBlocks (pad msg)).foldl compress initDigest

def hexChar (n : Nat) : Char := if n < 10 then Char.ofNat (48 + n) else Char.ofNat (87 + n)

def hexWord (w : Nat) : List Char := (List.range 8).map (fun i => hexChar ((w >>> (4 * (7 - i))) % 16))

def hexOfDigest (d : Digest) : String :=
  ⟨hexWord d.h0 ++ hexWord d.h1 ++ hexWord d.h2 ++ hexWord d.h3 ++
   hexWord d.h4 ++ hexWord d.h5 ++ hexWord d.h6 ++ hexWord d.h7⟩

def utf8Char (c : Nat) : List Nat :=
  if c < 128 then [c]
  else if c < 2048 then [192 + c / 64, 128 + c % 64]
  else if c < 65536 then [224 + c / 4096, 128 + c / 64 % 64, 128 + c % 64]
  else [240 + c / 262144, 128 + c / 4096 % 64, 128 + c / 64 % 64, 128 + c % 64]

def utf8Bytes (s : String) : List Nat := s.data.foldr (fun c acc => utf8Char c.toNat ++ acc) []

set_option maxRecDepth 10000 in
def sha256hex (s : String) : String := hexOfDigest (sha256Bytes (utf8Bytes s))

example : sha256hex "abc" = "ba7816bf8f01cfea414140de5dae2223b00361a396177a9cb410ff61f20015ad" := by decide

example : sha256hex "anonymous" = "2f183a4e64493af3f377f745eda502363cd3e7ef6e4d266d444758de0a85fcc8" := by decide


end SHA256

namespace RL

/-- The `error_details` dict built by `_check_counter`
(`rate_limiter.py` lines 168–173 and 203–208). -/
structure ErrorDetail where
  error_code : String
  retry_after : Int
  limit : Nat
  current : Nat
deriving Repr, DecidableEq

/-- The `(is_allowed, error_message, error_details)` tuple returned by
`check_rate_limit` and `_check_counter`. -/
structure Decision where
  allowed : Bool
  error_message : Option String
  error_detail : Option ErrorDetail
deriving Repr, DecidableEq

/-! ## Redis backend: the atomic Lua script -/

/-- The state of one Redis key at the instant the Lua script executes:
`val` is what `GET` returns (`none` = key absent, counters are naturals),
`ttlRem` is what `TTL` returns (`-2` absent, `-1` no expiry, else remaining
seconds). -/
structure RKey where
  val : Option Nat
  ttlRem : Int
deriving Repr, DecidableEq

/-- The state of an absent key (`GET` nil, `TTL` = -2). -/
def RKey.absent : RKey := ⟨none, -2⟩

/-- The Lua script of `_check_counter` (`rate_limiter.py` lines 125–151),
as an atomic transformer of the key's state.  Returns the `{allowed01,
value, ttl}` triple the script returns, and the key's new state.
`current_value = current and tonumber(current) or 0`; if
`current_value + increment > limit` it returns `{0, current_value,
TTL key}` without touching the key; otherwise it runs
`INCRBY key increment`, and attaches `EXPIRE key ttl` exactly when
`current_value == 0`. -/
def luaCheckCounter (s : RKey) (limit increment ttl : Nat) :
    (Nat × Nat × Int) × RKey :=
  let current_value := s.val.getD 0
  if current_value + increment > limit then
    ((0, current_value, s.ttlRem), s)
  else
    let new_value := current_value + increment
    if current_value = 0 then
      ((1, new_value, (ttl : Int)), ⟨some new_value, (ttl : Int)⟩)
    else
      ((1, new_value, s.ttlRem), ⟨some new_value, s.ttlRem⟩)

/-- A whole Redis keyspace: every key string has an `RKey` state
(absent keys are `RKey.absent`). -/
def RStore := String → RKey

/-- Write one key's state back into the keyspace. -/
def RStore.update (st : RStore) (key : String) (s : RKey) : RStore :=
  fun k => if k = key then s else st k

/-- The Redis branch of `_check_counter` (`rate_limiter.py` lines 121–185):
runs the Lua script on `key`, converts the reply
(`allowed = bool(result[0])`, `retry_after = 1` if the reported TTL is
negative else `max(remaining_ttl, 1)`), and on denial builds the error
message and `error_details`.  `fail` models `redis.RedisError` being raised
by `eval`: the handler logs and returns `(True, None, None)` (fail open). -/
def checkCounterRedis (st : RStore) (key : String) (limit ttl : Nat)
    (limit_type : String) (increment : Nat) (error_code : String)
    (fail : Bool) : Decision × RStore :=
  if fail then
    (⟨true, none, none⟩, st)
  else
    let r := luaCheckCounter (st key) limit increment ttl
    let allowed := r.1.1 ≠ 0
    let current_value := r.1.2.1
    let remaining_ttl := r.1.2.2
    let st' := st.update key r.2
    if allowed then
      (⟨true, none, none⟩, st')
    else
      let retry_after : Int := if remaining_ttl < 0 then 1 else max remaining_ttl 1
      (⟨false, some s!"Rate limit exceeded: {limit} {limit_type}",
        some ⟨error_code, retry_after, limit, current_value⟩⟩, st')

/-! ## In-memory fallback backend -/

/-- One `_memory_store` entry: `{"count": ..., "expires_at": ...}`
(`rate_limiter.py` line 191).  Timestamps are modelled as integers. -/
structure MemEntry where
  count : Nat
  expires_at : Int
deriving Repr, DecidableEq

/-- The `_memory_store` dict. -/
def MStore := String → Option MemEntry

/-- Write one entry back into `_memory_store`. -/
def MStore.update (st : MStore) (key : String) (e : MemEntry) : MStore :=
  fun k => if k = key then some e else st k

/-- The in-memory branch of `_check_counter` (`rate_limiter.py` lines
186–212): create the entry `{count 0, expires_at now + ttl}` if the key is
missing, reset it the same way if `now >= expires_at` (lazy expiry), then
deny without incrementing when `count + increment > limit` (with
`retry_after = max(expires_at - now, 1)`), else add the increment.
All three mutations of the entry are persisted in the returned store. -/
def checkCounterMem (st : MStore) (key : String) (limit ttl : Nat)
    (limit_type : String) (increment : Nat) (error_code : String)
    (now : Int) : Decision × MStore :=
  let entry0 : MemEntry :=
    match st key with
    | none => ⟨0, now + ttl⟩
    | some e => e
  let entry : MemEntry :=
    if now ≥ entry0.expires_at then ⟨0, now + ttl⟩ else entry0
  if entry.count + increment > limit then
    let retry_after : Int := entry.expires_at - now
    (⟨false, some s!"Rate limit exceeded: {limit} {limit_type}",
      some ⟨error_code, max retry_after 1, limit, entry.count⟩⟩,
     st.update key entry)
  else
    (⟨true, none, none⟩, st.update key ⟨entry.count + increment, entry.expires_at⟩)

/-- The counter value a fresh call would observe at time `now`: 0 for an
absent or lazily-expired entry, else the stored count. -/
def memValue (st : MStore) (key : String) (now : Int) : Nat :=
  match st key with
  | none => 0
  | some e => if now ≥ e.expires_at then 0 else e.count

/-! ## The dual-window limiter `check_rate_limit` -/

/-- `f"rate_limit:minute:{api_key_hash}:{self._get_current_minute()}"`
(the minute bucket string is an external input here, the code formats the
current UTC time). -/
def minuteKey (api_key_hash minute_bucket : String) : String :=
  "rate_limit:minute:" ++ api_key_hash ++ ":" ++ minute_bucket

/-- `f"rate_limit:day:{api_key_hash}:{self._get_current_day()}"`. -/
def dayKey (api_key_hash day_bucket : String) : String :=
  "rate_limit:day:" ++ api_key_hash ++ ":" ++ day_bucket

/-- `check_rate_limit` (`rate_limiter.py` lines 45–92) on the Redis backend:
check the minute counter (limit `max_requests_per_minute`, TTL 60,
increment 1, code `ERR_RATE_LIMIT_EXCEEDED`); if denied return that triple
at once; else check the day counter (limit `max_sequences_per_day`, TTL
86400, increment `num_sequences`, code `ERR_QUOTA_EXCEEDED`); if denied
return that triple; else `(True, None, None)`.  `failM`/`failD` model a
`redis.RedisError` in the respective `eval` call. -/
def checkRateLimitRedis (st : RStore) (api_key_hash : String)
    (max_requests_per_minute max_sequences_per_day num_sequences : Nat)
    (minute_bucket day_bucket : String) (failM failD : Bool) :
    Decision × RStore :=
  let mres := checkCounterRedis st (minuteKey api_key_hash minute_bucket)
    max_requests_per_minute 60 "requests per minute" 1
    "ERR_RATE_LIMIT_EXCEEDED" failM
  if mres.1.allowed = false then mres
  else
    let dres := checkCounterRedis mres.2 (dayKey api_key_hash day_bucket)
      max_sequences_per_day 86400 "sequences per day" num_sequences
      "ERR_QUOTA_EXCEEDED" failD
    if dres.1.allowed = false then dres
    else (⟨true, none, none⟩, dres.2)

/-- `check_rate_limit` on the in-memory fallback backend (same composition,
`_check_counter` taking the in-memory branch; `now` models `time.time()`). -/
def checkRateLimitMem (st : MStore) (api_key_hash : String)
    (max_requests_per_minute max_sequences_per_day num_sequences : Nat)
    (minute_bucket day_bucket : String) (now : Int) :
    Decision × MStore :=
  let mres := checkCounterMem st (minuteKey api_key_hash minute_bucket)
    max_requests_per_minute 60 "requests per minute" 1
    "ERR_RATE_LIMIT_EXCEEDED" now
  if mres.1.allowed = false then mres
  else
    let dres := checkCounterMem mres.2 (dayKey api_key_hash day_bucket)
      max_sequences_per_day 86400 "sequences per day" num_sequences
      "ERR_QUOTA_EXCEEDED" now
    if dres.1.allowed = false then dres
    else (⟨true, none, none⟩, dres.2)

/-! ## Identity hasher (HTTP boundary) -/

/-- The rate-limiting identity derivation in `main.py check_rate_limit`
(lines 230–236): `hashlib.sha256(api_key.encode()).hexdigest()` when
`api_key` is truthy (not `None`, not empty), else
`hashlib.sha256(b"anonymous").hexdigest()`. -/
def rateLimitIdentity (api_key : Option String) : String :=
  match api_key with
  | some k => if k = "" then SHA256.sha256hex "anonymous" else SHA256.sha256hex k
  | none => SHA256.sha256hex "anonymous"

/-- `APIKeyManager._hash_key` (`auth.py` lines 94–96): the full SHA-256 hex
digest of the raw key. -/
def _hash_key (api_key : String) : String := SHA256.sha256hex api_key

/-- A sequence of atomic Lua script executions on one key, in some serial
order (Redis executes Lua scripts atomically, so any concurrent schedule is
equivalent to one such serialisation).  Returns how many calls were
admitted and the key's final state. -/
def luaRun (limit ttl : Nat) : List Nat → RKey → Nat × RKey
  | [], s => (0, s)
  | i :: rest, s =>
      let r := luaCheckCounter s limit i ttl
      let t := luaRun limit ttl rest r.2
      ((if r.1.1 = 0 then 0 else 1) + t.1, t.2)

/-! ## Theorems -/

/-! ## Key disjointness

The minute- and day-scope keys can never collide: they differ at character
index 11 (`'m'` vs `'d'`) right after the shared `"rate_limit:"` prefix. -/

theorem String.data_append_eq (a b : String) : (a ++ b).data = a.data ++ b.data := rfl

/-- A minute-scope key is never equal to a day-scope key, whatever the
identity hashes and buckets are. -/
theorem minuteKey_ne_dayKey (h m h' d : String) : minuteKey h m ≠ dayKey h' d := by
  intro e
  have e2 := congrArg String.data e
  unfold minuteKey dayKey at e2
  rw [String.data_append_eq, String.data_append_eq, String.data_append_eq,
    String.data_append_eq, String.data_append_eq, String.data_append_eq] at e2
  have l1 : "rate_limit:minute:".data
      = ['r','a','t','e','_','l','i','m','i','t',':','m','i','n','u','t','e',':'] := rfl
  have l2 : "rate_limit:day:".data
      = ['r','a','t','e','_','l','i','m','i','t',':','d','a','y',':'] := rfl
  rw [l1, l2] at e2
  simp at e2

/-- FIPS 180-4 test vector for `"abc"`: validates the SHA-256 embedding. -/
theorem sha256hex_vector_abc :
    SHA256.sha256hex "abc"
      = "ba7816bf8f01cfea414140de5dae2223b00361a396177a9cb410ff61f20015ad" := by
  decide

/-- Test vector for the anonymous sentinel (`sha256(b"anonymous")`). -/
theorem sha256hex_vector_anonymous :
    SHA256.sha256hex "anonymous"
      = "2f183a4e64493af3f377f745eda502363cd3e7ef6e4d266d444758de0a85fcc8" := by
  decide

/-! ## Claims -/

/-- **C1**: on both counter paths of `_check_counter`, with stored value `c`,
limit `L ≥ 1` and increment `i ≥ 1`, the request is allowed iff
`c + i ≤ L`; in particular `c = L - 1, i = 1` is allowed (counter becomes
exactly `L`) and `c = L, i = 1` is denied. -/
theorem counter_allows_iff_within_limit
    (st : RStore) (ms : MStore) (key lt ec : String) (c L i ttl : Nat)
    (r exp now : Int)
    (hL : 1 ≤ L) (hi : 1 ≤ i)
    (hr : st key = ⟨some c, r⟩)
    (hm : ms key = some ⟨c, exp⟩) (hexp : now < exp) :
    ((checkCounterRedis st key L ttl lt i ec false).1.allowed = true ↔ c + i ≤ L)
    ∧ ((checkCounterMem ms key L ttl lt i ec now).1.allowed = true ↔ c + i ≤ L)
    ∧ (luaCheckCounter ⟨some (L - 1), r⟩ L 1 ttl).1.1 = 1
    ∧ (luaCheckCounter ⟨some (L - 1), r⟩ L 1 ttl).2.val = some L
    ∧ (luaCheckCounter ⟨some L, r⟩ L 1 ttl).1.1 = 0 := by
  refine ⟨?_, ?_, ?_, ?_, ?_⟩
  · simp only [checkCounterRedis, luaCheckCounter, hr, if_false, Bool.false_eq_true]
    split
    · simp_all <;> omega
    · split <;> simp_all <;> omega
  · simp only [checkCounterMem, hm]
    have : ¬ now ≥ exp := by omega
    simp only [this, if_false]
    split
    · simp_all <;> omega
    · simp_all <;> omega
  · simp only [luaCheckCounter, Option.getD_some]
    have : ¬ (L - 1 + 1 > L) := by omega
    rw [if_neg this]
    split <;> simp
  · simp only [luaCheckCounter, Option.getD_some]
    have h1 : ¬ (L - 1 + 1 > L) := by omega
    have h2 : L - 1 + 1 = L := by omega
    rw [if_neg h1, h2]
    split <;> simp
  · simp [luaCheckCounter]

/-- Witness for C1 at `c = 4, L = 5, i = 1`. -/
theorem counter_allows_iff_within_limit_witness :
    ((checkCounterRedis (fun _ => ⟨some 4, 30⟩) "k" 5 60 "requests per minute" 1
        "ERR_RATE_LIMIT_EXCEEDED" false).1.allowed = true ↔ 4 + 1 ≤ 5)
    ∧ ((checkCounterMem (fun _ => some ⟨4, 100⟩) "k" 5 60 "requests per minute" 1
        "ERR_RATE_LIMIT_EXCEEDED" 50).1.allowed = true ↔ 4 + 1 ≤ 5)
    ∧ (luaCheckCounter ⟨some (5 - 1), 30⟩ 5 1 60).1.1 = 1
    ∧ (luaCheckCounter ⟨some (5 - 1), 30⟩ 5 1 60).2.val = some 5
    ∧ (luaCheckCounter ⟨some 5, 30⟩ 5 1 60).1.1 = 0 :=
  counter_allows_iff_within_limit (fun _ => ⟨some 4, 30⟩) (fun _ => some ⟨4, 100⟩)
    "k" "requests per minute" "ERR_RATE_LIMIT_EXCEEDED" 4 5 1 60 30 100 50
    (by decide) (by decide) rfl rfl (by decide)

/-- **C6**: a backend error during the atomic check-and-increment makes the
limiter fail open: `(True, None, None)` is returned whatever the prior
counter state, and no exception escapes (`_check_counter` lines 182–185). -/
theorem backend_error_fails_open
    (st : RStore) (key lt ec : String) (limit ttl increment : Nat) :
    (checkCounterRedis st key limit ttl lt increment ec true).1
      = ⟨true, none, none⟩ := by
  simp [checkCounterRedis]

/-- Writing back the value a key already has is a no-op on the keyspace. -/
theorem RStore.update_self (st : RStore) (key : String) :
    st.update key (st key) = st := by
  funext k
  by_cases h : k = key <;> simp [RStore.update, h]

/-- **C3**: a denying counter check is side-effect free and the
check-and-increment is all-or-nothing: on the Redis path a denial leaves the
whole keyspace unchanged; on the in-memory path a denial leaves every key's
observable counter value unchanged; an increment alone above the limit is
always denied on both paths; and when a check allows, the full increment is
recorded (nothing less). -/
theorem deny_is_all_or_nothing
    (st : RStore) (ms : MStore) (key lt ec : String) (L ttl i : Nat) (now : Int) :
    ((checkCounterRedis st key L ttl lt i ec false).1.allowed = false →
      (checkCounterRedis st key L ttl lt i ec false).2 = st)
    ∧ ((checkCounterMem ms key L ttl lt i ec now).1.allowed = false →
      ∀ k, memValue ((checkCounterMem ms key L ttl lt i ec now).2) k now
        = memValue ms k now)
    ∧ (L < i → (checkCounterRedis st key L ttl lt i ec false).1.allowed = false)
    ∧ (L < i → (checkCounterMem ms key L ttl lt i ec now).1.allowed = false)
    ∧ ((checkCounterRedis st key L ttl lt i ec false).1.allowed = true →
      ((checkCounterRedis st key L ttl lt i ec false).2 key).val
        = some ((st key).val.getD 0 + i))
    ∧ ((checkCounterMem ms key L ttl lt i ec now).1.allowed = true →
      ∃ e, (checkCounterMem ms key L ttl lt i ec now).2 key = some e
        ∧ e.count = memValue ms key now + i) := by
  refine ⟨?_, ?_, ?_, ?_, ?_, ?_⟩
  · intro hdeny
    simp only [checkCounterRedis, luaCheckCounter] at hdeny ⊢
    split_ifs at hdeny ⊢ <;> simp_all [RStore.update_self]
  · intro hdeny k
    rcases hms : ms key with _ | e <;>
      by_cases hk : k = key <;>
        simp only [checkCounterMem, memValue, MStore.update, hms, hk] at hdeny ⊢ <;>
          split_ifs at hdeny ⊢ <;> simp_all [MStore.update] <;> omega
  · intro hbig
    simp only [checkCounterRedis, luaCheckCounter]
    have : (st key).val.getD 0 + i > L := by omega
    simp [this]
  · intro hbig
    rcases hms : ms key with _ | e <;>
      simp only [checkCounterMem, hms] <;>
        split_ifs <;> simp_all <;> omega
  · intro hallow
    simp only [checkCounterRedis, luaCheckCounter, RStore.update] at hallow ⊢
    split_ifs at hallow ⊢ <;> simp_all [RStore.update]
  · intro hallow
    rcases hms : ms key with _ | e <;>
      simp only [checkCounterMem, memValue, MStore.update, hms] at hallow ⊢ <;>
        split_ifs at hallow ⊢ <;> simp_all [MStore.update] <;> omega

/-- Witness for C3: each implication discharged at concrete inputs
(denial at `c = 5, L = 5, i = 1`; oversized increment `i = 7 > L = 5`;
allowance at `c = 3, L = 5, i = 1`). -/
theorem deny_is_all_or_nothing_witness :
    (checkCounterRedis (fun _ => ⟨some 5, 30⟩) "k" 5 60 "t" 1 "E" false).2
        = (fun _ => ⟨some 5, 30⟩)
    ∧ memValue ((checkCounterMem (fun _ => some ⟨5, 100⟩) "k" 5 60 "t" 1 "E" 50).2) "k" 50
        = memValue (fun _ => some ⟨5, 100⟩) "k" 50
    ∧ (checkCounterRedis (fun _ => ⟨some 5, 30⟩) "k" 5 60 "t" 7 "E" false).1.allowed = false
    ∧ (checkCounterMem (fun _ => some ⟨5, 100⟩) "k" 5 60 "t" 7 "E" 50).1.allowed = false
    ∧ ((checkCounterRedis (fun _ => ⟨some 3, 30⟩) "k" 5 60 "t" 1 "E" false).2 "k").val
        = some (((fun _ => (⟨some 3, 30⟩ : RKey)) "k").val.getD 0 + 1)
    ∧ ∃ e, (checkCounterMem (fun _ => some ⟨3, 100⟩) "k" 5 60 "t" 1 "E" 50).2 "k" = some e
        ∧ e.count = memValue (fun _ => some ⟨3, 100⟩) "k" 50 + 1 :=
  ⟨(deny_is_all_or_nothing (fun _ => ⟨some 5, 30⟩) (fun _ => some ⟨5, 100⟩)
      "k" "t" "E" 5 60 1 50).1 (by decide),
   (deny_is_all_or_nothing (fun _ => ⟨some 5, 30⟩) (fun _ => some ⟨5, 100⟩)
      "k" "t" "E" 5 60 1 50).2.1 (by decide) "k",
   (deny_is_all_or_nothing (fun _ => ⟨some 5, 30⟩) (fun _ => some ⟨5, 100⟩)
      "k" "t" "E" 5 60 7 50).2.2.1 (by decide),
   (deny_is_all_or_nothing (fun _ => ⟨some 5, 30⟩) (fun _ => some ⟨5, 100⟩)
      "k" "t" "E" 5 60 7 50).2.2.2.1 (by decide),
   (deny_is_all_or_nothing (fun _ => ⟨some 3, 30⟩) (fun _ => some ⟨3, 100⟩)
      "k" "t" "E" 5 60 1 50).2.2.2.2.1 (by decide),
   (deny_is_all_or_nothing (fun _ => ⟨some 3, 30⟩) (fun _ => some ⟨3, 100⟩)
      "k" "t" "E" 5 60 1 50).2.2.2.2.2 (by decide)⟩

/-- **C7**: the window is fixed, not sliding.  On the Redis path a
non-existent key is treated exactly like a key storing 0 (same reply
triple); the TTL is attached on the first successful increment (pre-value
0) and a later increment keeps the remaining TTL untouched.  On the
fallback path expiry is lazy: an expired entry is reset to count 0 with a
fresh window on access, so once the window has elapsed a call whose
increment fits the limit is admitted again. -/
theorem window_is_fixed
    (ms : MStore) (key lt ec : String) (L ttl i c : Nat) (r exp now : Int) :
    ((luaCheckCounter ⟨none, r⟩ L i ttl).1 = (luaCheckCounter ⟨some 0, r⟩ L i ttl).1)
    ∧ (i ≤ L → (luaCheckCounter ⟨none, r⟩ L i ttl).2 = ⟨some i, (ttl : Int)⟩)
    ∧ (1 ≤ c → c + i ≤ L → (luaCheckCounter ⟨some c, r⟩ L i ttl).2 = ⟨some (c + i), r⟩)
    ∧ (ms key = some ⟨c, exp⟩ → now ≥ exp → i ≤ L →
        (checkCounterMem ms key L ttl lt i ec now).1.allowed = true
        ∧ (checkCounterMem ms key L ttl lt i ec now).2 key = some ⟨i, now + ttl⟩) := by
  refine ⟨?_, ?_, ?_, ?_⟩
  · simp only [luaCheckCounter]
    split_ifs <;> simp_all <;> omega
  · intro hle
    simp only [luaCheckCounter]
    split_ifs <;> simp_all <;> omega
  · intro hc hle
    simp only [luaCheckCounter]
    split_ifs <;> simp_all <;> omega
  · intro hms hnow hle
    have h1 : ¬ (i > L) := by omega
    simp [checkCounterMem, hms, hnow, h1, MStore.update]

/-- Witness for C7: implications discharged (`i = 1 ≤ L = 2`; a later
increment at `c = 1, L = 3`; a lazily-expired entry at time 150). -/
theorem window_is_fixed_witness :
    ((luaCheckCounter ⟨none, 7⟩ 2 1 60).1 = (luaCheckCounter ⟨some 0, 7⟩ 2 1 60).1)
    ∧ (luaCheckCounter ⟨none, 7⟩ 2 1 60).2 = ⟨some 1, (60 : Int)⟩
    ∧ (luaCheckCounter ⟨some 1, 7⟩ 3 1 60).2 = ⟨some (1 + 1), 7⟩
    ∧ ((checkCounterMem (fun _ => some ⟨2, 100⟩) "k" 2 60 "t" 1 "E" 150).1.allowed = true
        ∧ (checkCounterMem (fun _ => some ⟨2, 100⟩) "k" 2 60 "t" 1 "E" 150).2 "k"
            = some ⟨1, 150 + 60⟩) :=
  ⟨(window_is_fixed (fun _ => some ⟨2, 100⟩) "k" "t" "E" 2 60 1 2 7 100 150).1,
   (window_is_fixed (fun _ => some ⟨2, 100⟩) "k" "t" "E" 2 60 1 2 7 100 150).2.1 (by decide),
   (window_is_fixed (fun _ => some ⟨2, 100⟩) "k" "t" "E" 3 60 1 1 7 100 150).2.2.1
      (by decide) (by decide),
   (window_is_fixed (fun _ => some ⟨2, 100⟩) "k" "t" "E" 2 60 1 2 7 100 150).2.2.2
      rfl (by decide) (by decide)⟩

/-- **C8**: every denial reports the configured limit, the stored value and
`retry_after` = the remaining TTL clamped to at least 1 second; a TTL
reported negative (no expiry / key absent) yields exactly 1.  Covers the
Redis path for a present key, the Redis path for an absent key (TTL -2),
and the fallback path. -/
theorem denial_reports_limit_current_retry
    (st : RStore) (ms : MStore) (key lt ec : String) (L ttl i c : Nat)
    (r exp now : Int) :
    (st key = ⟨some c, r⟩ → L < c + i →
      (checkCounterRedis st key L ttl lt i ec false).1
        = ⟨false, some s!"Rate limit exceeded: {L} {lt}",
            some ⟨ec, if r < 0 then 1 else max r 1, L, c⟩⟩)
    ∧ (st key = RKey.absent → L < i →
      (checkCounterRedis st key L ttl lt i ec false).1
        = ⟨false, some s!"Rate limit exceeded: {L} {lt}", some ⟨ec, 1, L, 0⟩⟩)
    ∧ (ms key = some ⟨c, exp⟩ → now < exp → L < c + i →
      (checkCounterMem ms key L ttl lt i ec now).1
        = ⟨false, some s!"Rate limit exceeded: {L} {lt}",
            some ⟨ec, max (exp - now) 1, L, c⟩⟩) := by
  refine ⟨?_, ?_, ?_⟩
  · intro hst hbig
    simp only [checkCounterRedis, luaCheckCounter, hst]
    split_ifs <;> simp_all <;> omega
  · intro hst hbig
    simp only [checkCounterRedis, luaCheckCounter, hst, RKey.absent]
    split_ifs <;> simp_all
  · intro hms hnow hbig
    simp only [checkCounterMem, hms]
    split_ifs <;> simp_all <;> omega

/-- Witness for C8: a Redis denial at value 5 / limit 5 / TTL 30, an
absent-key denial with oversized increment 7 (retry defaults to 1), and a
fallback denial at time 50 with window end 80. -/
theorem denial_reports_limit_current_retry_witness :
    (checkCounterRedis (fun _ => ⟨some 5, 30⟩) "k" 5 60 "requests per minute" 1
          "ERR_RATE_LIMIT_EXCEEDED" false).1
        = ⟨false, some s!"Rate limit exceeded: {5} requests per minute",
            some ⟨"ERR_RATE_LIMIT_EXCEEDED", if (30 : Int) < 0 then 1 else max 30 1, 5, 5⟩⟩
    ∧ (checkCounterRedis (fun _ => RKey.absent) "k" 5 60 "requests per minute" 7
          "ERR_RATE_LIMIT_EXCEEDED" false).1
        = ⟨false, some s!"Rate limit exceeded: {5} requests per minute",
            some ⟨"ERR_RATE_LIMIT_EXCEEDED", 1, 5, 0⟩⟩
    ∧ (checkCounterMem (fun _ => some ⟨5, 80⟩) "k" 5 60 "requests per minute" 1
          "ERR_RATE_LIMIT_EXCEEDED" 50).1
        = ⟨false, some s!"Rate limit exceeded: {5} requests per minute",
            some ⟨"ERR_RATE_LIMIT_EXCEEDED", max (80 - 50) 1, 5, 5⟩⟩ :=
  ⟨(denial_reports_limit_current_retry (fun _ => ⟨some 5, 30⟩) (fun _ => some ⟨5, 80⟩)
      "k" "requests per minute" "ERR_RATE_LIMIT_EXCEEDED" 5 60 1 5 30 80 50).1 rfl (by decide),
   (denial_reports_limit_current_retry (fun _ => RKey.absent) (fun _ => some ⟨5, 80⟩)
      "k" "requests per minute" "ERR_RATE_LIMIT_EXCEEDED" 5 60 7 5 30 80 50).2.1 rfl (by decide),
   (denial_reports_limit_current_retry (fun _ => ⟨some 5, 30⟩) (fun _ => some ⟨5, 80⟩)
      "k" "requests per minute" "ERR_RATE_LIMIT_EXCEEDED" 5 60 1 5 30 80 50).2.2 rfl
      (by decide) (by decide)⟩

/-- Per-counter helper: on the Redis branch, `error_details` is present iff
the check denied, and any present `retry_after` is at least 1. -/
theorem checkCounterRedis_detail_invariant
    (st : RStore) (key : String) (L ttl : Nat) (lt : String) (i : Nat)
    (ec : String) (fail : Bool) :
    ((checkCounterRedis st key L ttl lt i ec fail).1.error_detail.isSome
      ↔ (checkCounterRedis st key L ttl lt i ec fail).1.allowed = false)
    ∧ 1 ≤ ((checkCounterRedis st key L ttl lt i ec fail).1.error_detail.map
        ErrorDetail.retry_after).getD 1 := by
  simp only [checkCounterRedis, luaCheckCounter]
  split_ifs <;> simp_all <;> omega

/-- Per-counter helper: the same invariant on the in-memory branch. -/
theorem checkCounterMem_detail_invariant
    (st : MStore) (key : String) (L ttl : Nat) (lt : String) (i : Nat)
    (ec : String) (now : Int) :
    ((checkCounterMem st key L ttl lt i ec now).1.error_detail.isSome
      ↔ (checkCounterMem st key L ttl lt i ec now).1.allowed = false)
    ∧ 1 ≤ ((checkCounterMem st key L ttl lt i ec now).1.error_detail.map
        ErrorDetail.retry_after).getD 1 := by
  rcases hms : st key with _ | e <;> simp only [checkCounterMem, hms] <;>
    split_ifs <;> simp_all <;> omega

/-- **C5**: for every decision `check_rate_limit` returns (either backend,
including Redis error injection on either window), `error_detail` is
present iff `allowed` is false, and a present `retry_after` is ≥ 1
(stated as: the `retry_after` read out of `error_detail`, with default 1
when absent, is always ≥ 1). -/
theorem decision_detail_invariant
    (st : RStore) (ms : MStore) (h mb db : String) (mpm mpd n : Nat)
    (failM failD : Bool) (now : Int) :
    ((checkRateLimitRedis st h mpm mpd n mb db failM failD).1.error_detail.isSome
      ↔ (checkRateLimitRedis st h mpm mpd n mb db failM failD).1.allowed = false)
    ∧ 1 ≤ ((checkRateLimitRedis st h mpm mpd n mb db failM failD).1.error_detail.map
        ErrorDetail.retry_after).getD 1
    ∧ ((checkRateLimitMem ms h mpm mpd n mb db now).1.error_detail.isSome
      ↔ (checkRateLimitMem ms h mpm mpd n mb db now).1.allowed = false)
    ∧ 1 ≤ ((checkRateLimitMem ms h mpm mpd n mb db now).1.error_detail.map
        ErrorDetail.retry_after).getD 1 := by
  refine ⟨?_, ?_, ?_, ?_⟩
  · simp only [checkRateLimitRedis]
    split
    · exact (checkCounterRedis_detail_invariant _ _ _ _ _ _ _ _).1
    · split
      · exact (checkCounterRedis_detail_invariant _ _ _ _ _ _ _ _).1
      · simp
  · simp only [checkRateLimitRedis]
    split
    · exact (checkCounterRedis_detail_invariant _ _ _ _ _ _ _ _).2
    · split
      · exact (checkCounterRedis_detail_invariant _ _ _ _ _ _ _ _).2
      · simp
  · simp only [checkRateLimitMem]
    split
    · exact (checkCounterMem_detail_invariant _ _ _ _ _ _ _ _).1
    · split
      · exact (checkCounterMem_detail_invariant _ _ _ _ _ _ _ _).1
      · simp
  · simp only [checkRateLimitMem]
    split
    · exact (checkCounterMem_detail_invariant _ _ _ _ _ _ _ _).2
    · split
      · exact (checkCounterMem_detail_invariant _ _ _ _ _ _ _ _).2
      · simp

/-- Frame helper: a Redis counter check touches no key but its own. -/
theorem checkCounterRedis_frame
    (st : RStore) (key : String) (L ttl : Nat) (lt : String) (i : Nat)
    (ec : String) (fail : Bool) (k : String) (hne : k ≠ key) :
    (checkCounterRedis st key L ttl lt i ec fail).2 k = st k := by
  simp only [checkCounterRedis, RStore.update]
  split_ifs <;> simp_all [RStore.update]

/-- Frame helper: an in-memory counter check touches no key but its own. -/
theorem checkCounterMem_frame
    (st : MStore) (key : String) (L ttl : Nat) (lt : String) (i : Nat)
    (ec : String) (now : Int) (k : String) (hne : k ≠ key) :
    (checkCounterMem st key L ttl lt i ec now).2 k = st k := by
  rcases hms : st key with _ | e <;> simp only [checkCounterMem, hms, MStore.update] <;>
    split_ifs <;> simp_all [MStore.update]

/-- **C4**: `check_rate_limit` evaluates the minute window strictly before
the day window.  On both backends: the limiter's effect on the minute key
is exactly the minute check's effect (an expression not involving
`num_sequences`), an allowed minute check adds exactly 1 to the minute
counter, and a denied minute check makes the call return the minute
decision (whose `error_code` is `ERR_RATE_LIMIT_EXCEEDED`) with the day
key's stored state untouched. -/
theorem minute_checked_first
    (st : RStore) (ms : MStore) (h mb db : String) (mpm mpd n : Nat)
    (failD : Bool) (now : Int) :
    ((checkRateLimitRedis st h mpm mpd n mb db false failD).2 (minuteKey h mb)
        = (checkCounterRedis st (minuteKey h mb) mpm 60 "requests per minute" 1
            "ERR_RATE_LIMIT_EXCEEDED" false).2 (minuteKey h mb))
    ∧ ((st (minuteKey h mb)).val.getD 0 + 1 ≤ mpm →
        ((checkRateLimitRedis st h mpm mpd n mb db false failD).2 (minuteKey h mb)).val
          = some ((st (minuteKey h mb)).val.getD 0 + 1))
    ∧ ((checkCounterRedis st (minuteKey h mb) mpm 60 "requests per minute" 1
          "ERR_RATE_LIMIT_EXCEEDED" false).1.allowed = false →
        (checkRateLimitRedis st h mpm mpd n mb db false failD).1
            = (checkCounterRedis st (minuteKey h mb) mpm 60 "requests per minute" 1
                "ERR_RATE_LIMIT_EXCEEDED" false).1
          ∧ ((checkRateLimitRedis st h mpm mpd n mb db false failD).1.error_detail.map
              ErrorDetail.error_code) = some "ERR_RATE_LIMIT_EXCEEDED"
          ∧ (checkRateLimitRedis st h mpm mpd n mb db false failD).2 (dayKey h db)
            = st (dayKey h db))
    ∧ ((checkRateLimitMem ms h mpm mpd n mb db now).2 (minuteKey h mb)
        = (checkCounterMem ms (minuteKey h mb) mpm 60 "requests per minute" 1
            "ERR_RATE_LIMIT_EXCEEDED" now).2 (minuteKey h mb))
    ∧ (memValue ms (minuteKey h mb) now + 1 ≤ mpm →
        ∃ e, (checkRateLimitMem ms h mpm mpd n mb db now).2 (minuteKey h mb) = some e
          ∧ e.count = memValue ms (minuteKey h mb) now + 1)
    ∧ ((checkCounterMem ms (minuteKey h mb) mpm 60 "requests per minute" 1
          "ERR_RATE_LIMIT_EXCEEDED" now).1.allowed = false →
        (checkRateLimitMem ms h mpm mpd n mb db now).1
            = (checkCounterMem ms (minuteKey h mb) mpm 60 "requests per minute" 1
                "ERR_RATE_LIMIT_EXCEEDED" now).1
          ∧ ((checkRateLimitMem ms h mpm mpd n mb db now).1.error_detail.map
              ErrorDetail.error_code) = some "ERR_RATE_LIMIT_EXCEEDED"
          ∧ (checkRateLimitMem ms h mpm mpd n mb db now).2 (dayKey h db)
            = ms (dayKey h db)) := by
  have hne : minuteKey h mb ≠ dayKey h db := minuteKey_ne_dayKey h mb h db
  have hframeR : (checkRateLimitRedis st h mpm mpd n mb db false failD).2 (minuteKey h mb)
      = (checkCounterRedis st (minuteKey h mb) mpm 60 "requests per minute" 1
          "ERR_RATE_LIMIT_EXCEEDED" false).2 (minuteKey h mb) := by
    simp only [checkRateLimitRedis]
    split
    · rfl
    · split <;> exact checkCounterRedis_frame _ _ _ _ _ _ _ _ _ hne
  have hframeM : (checkRateLimitMem ms h mpm mpd n mb db now).2 (minuteKey h mb)
      = (checkCounterMem ms (minuteKey h mb) mpm 60 "requests per minute" 1
          "ERR_RATE_LIMIT_EXCEEDED" now).2 (minuteKey h mb) := by
    simp only [checkRateLimitMem]
    split
    · rfl
    · split <;> exact checkCounterMem_frame _ _ _ _ _ _ _ _ _ hne
  refine ⟨hframeR, ?_, ?_, hframeM, ?_, ?_⟩
  · intro hallow
    rw [hframeR]
    simp only [checkCounterRedis, luaCheckCounter, RStore.update]
    split_ifs <;> simp_all [RStore.update] <;> omega
  · intro hdeny
    simp only [checkRateLimitRedis]
    rw [if_pos hdeny]
    refine ⟨rfl, ?_, ?_⟩
    · simp only [checkCounterRedis, luaCheckCounter] at hdeny ⊢
      split_ifs at hdeny ⊢ <;> simp_all
    · exact checkCounterRedis_frame _ _ _ _ _ _ _ _ _ (Ne.symm hne)
  · intro hallow
    rw [hframeM]
    rcases hms : ms (minuteKey h mb) with _ | e <;>
      simp only [checkCounterMem, memValue, MStore.update, hms] at hallow ⊢ <;>
        split_ifs at hallow ⊢ <;> simp_all [MStore.update] <;> omega
  · intro hdeny
    simp only [checkRateLimitMem]
    rw [if_pos hdeny]
    refine ⟨rfl, ?_, ?_⟩
    · rcases hms : ms (minuteKey h mb) with _ | e <;>
        simp only [checkCounterMem, hms] at hdeny ⊢ <;>
          split_ifs at hdeny ⊢ <;> simp_all
    · exact checkCounterMem_frame _ _ _ _ _ _ _ _ _ (Ne.symm hne)

/-- Witness for C4: a minute-denied call (`value 5, limit 5`) on both
backends; the result is the minute decision with code
`ERR_RATE_LIMIT_EXCEEDED` and the day key is untouched. -/
theorem minute_checked_first_witness :
    ((checkRateLimitRedis (fun _ => ⟨some 5, 30⟩) "h" 5 100 3 "m" "d" false false).1
        = (checkCounterRedis (fun _ => ⟨some 5, 30⟩) (minuteKey "h" "m") 5 60
            "requests per minute" 1 "ERR_RATE_LIMIT_EXCEEDED" false).1
      ∧ ((checkRateLimitRedis (fun _ => ⟨some 5, 30⟩) "h" 5 100 3 "m" "d" false
            false).1.error_detail.map ErrorDetail.error_code)
          = some "ERR_RATE_LIMIT_EXCEEDED"
      ∧ (checkRateLimitRedis (fun _ => ⟨some 5, 30⟩) "h" 5 100 3 "m" "d" false false).2
            (dayKey "h" "d")
          = (fun _ => (⟨some 5, 30⟩ : RKey)) (dayKey "h" "d"))
    ∧ ((checkRateLimitMem (fun _ => some ⟨5, 100⟩) "h" 5 100 3 "m" "d" 50).1
        = (checkCounterMem (fun _ => some ⟨5, 100⟩) (minuteKey "h" "m") 5 60
            "requests per minute" 1 "ERR_RATE_LIMIT_EXCEEDED" 50).1
      ∧ ((checkRateLimitMem (fun _ => some ⟨5, 100⟩) "h" 5 100 3 "m" "d"
            50).1.error_detail.map ErrorDetail.error_code)
          = some "ERR_RATE_LIMIT_EXCEEDED"
      ∧ (checkRateLimitMem (fun _ => some ⟨5, 100⟩) "h" 5 100 3 "m" "d" 50).2
            (dayKey "h" "d")
          = (fun _ => some (⟨5, 100⟩ : MemEntry)) (dayKey "h" "d")) :=
  ⟨(minute_checked_first (fun _ => ⟨some 5, 30⟩) (fun _ => some ⟨5, 100⟩)
      "h" "m" "d" 5 100 3 false 50).2.2.1 (by decide),
   (minute_checked_first (fun _ => ⟨some 5, 30⟩) (fun _ => some ⟨5, 100⟩)
      "h" "m" "d" 5 100 3 false 50).2.2.2.2.2 (by decide)⟩

/-- Helper for C2: from a live counter at value `c` (`1 ≤ c ≤ L`), running
`k` unit increments admits exactly `min k (L - c)` and leaves the value at
`min (c + k) L` with the TTL untouched. -/
theorem luaRun_ones (L t : Nat) :
    ∀ (k c : Nat) (r : Int), 1 ≤ c → c ≤ L →
      luaRun L t (List.replicate k 1) ⟨some c, r⟩
        = (min k (L - c), ⟨some (min (c + k) L), r⟩) := by
  intro k
  induction k with
  | zero =>
      intro c r hc hcL
      simp [luaRun]
      omega
  | succ k ih =>
      intro c r hc hcL
      rcases Nat.lt_or_ge c L with hlt | hge
      · have hstep : luaCheckCounter ⟨some c, r⟩ L 1 t
            = ((1, c + 1, r), ⟨some (c + 1), r⟩) := by
          simp only [luaCheckCounter]
          split_ifs <;> simp_all <;> omega
        simp only [List.replicate, luaRun, hstep, ih (c + 1) r (by omega) (by omega)]
        simp
        omega
      · have hc_eq : c = L := by omega
        have hstep : luaCheckCounter ⟨some c, r⟩ L 1 t = ((0, c, r), ⟨some c, r⟩) := by
          simp only [luaCheckCounter]
          split_ifs <;> simp_all <;> omega
        simp only [List.replicate, luaRun, hstep, ih c r hc hcL]
        simp
        omega

/-- **C2**: serialised atomic check-and-increments on a fresh key with
limit `L ≥ 1` and unit increments admit exactly `min N L` of `N` calls,
whatever the interleaving order (every order of unit calls is the same
list); and for arbitrary concurrent callers (any increment sequence,
any starting state within the limit) the stored value never exceeds the
limit. -/
theorem atomic_script_admits_min (N L t : Nat) (hL : 1 ≤ L) :
    (luaRun L t (List.replicate N 1) RKey.absent).1 = min N L
    ∧ ∀ (incs : List Nat) (s : RKey), s.val.getD 0 ≤ L →
        ((luaRun L t incs s).2).val.getD 0 ≤ L := by
  constructor
  · cases N with
    | zero => simp [luaRun]
    | succ n =>
        have hstep : luaCheckCounter RKey.absent L 1 t
            = ((1, 1, (t : Int)), ⟨some 1, (t : Int)⟩) := by
          simp only [luaCheckCounter, RKey.absent]
          split_ifs <;> simp_all <;> omega
        simp only [List.replicate, luaRun, hstep,
          luaRun_ones L t n 1 (t : Int) (by omega) hL]
        simp
        omega
  · intro incs
    induction incs with
    | nil => intro s hs; simpa [luaRun] using hs
    | cons i rest ih =>
        intro s hs
        simp only [luaRun]
        apply ih
        simp only [luaCheckCounter]
        split_ifs <;> simp_all <;> omega

/-- Witness for C2: `L = 10`, `N = 20` concurrent unit calls admit exactly
10; a mixed increment sequence from value 4 stays within the limit. -/
theorem atomic_script_admits_min_witness :
    (luaRun 10 60 (List.replicate 20 1) RKey.absent).1 = min 20 10
    ∧ ((luaRun 10 60 [3, 5, 9, 2] ⟨some 4, 30⟩).2).val.getD 0 ≤ 10 :=
  ⟨(atomic_script_admits_min 20 10 60 (by decide)).1,
   (atomic_script_admits_min 20 10 60 (by decide)).2 [3, 5, 9, 2] ⟨some 4, 30⟩ (by decide)⟩

/-- The hex digest always spells 8 words of 8 hex characters: 64 in all,
independently of the input. -/
theorem sha256hex_length (s : String) : (SHA256.sha256hex s).length = 64 := by
  simp [SHA256.sha256hex, SHA256.hexOfDigest, String.length, SHA256.hexWord]

/-- **C9**: the identity hasher is a pure function from credential to a
fixed-length opaque identifier: equal credentials always map to equal
identifiers, and both `_hash_key` and the boundary's rate-limit identity
are 64 hex characters long for every input (the full SHA-256 hex digest —
the "fixed prefix" kept is the whole digest). -/
theorem identity_hash_deterministic_fixed_length
    (k : String) (a b : Option String) (hab : a = b) :
    rateLimitIdentity a = rateLimitIdentity b
    ∧ ( _hash_key k).length = 64
    ∧ (rateLimitIdentity a).length = 64 := by
  refine ⟨by rw [hab], sha256hex_length k, ?_⟩
  cases a with
  | none => exact sha256hex_length _
  | some x =>
      by_cases hx : x = "" <;> simp [rateLimitIdentity, hx, sha256hex_length]

/-- Witness for C9 at the credential `"abc"`. -/
theorem identity_hash_deterministic_fixed_length_witness :
    rateLimitIdentity (some "abc") = rateLimitIdentity (some "abc")
    ∧ ( _hash_key "abc").length = 64
    ∧ (rateLimitIdentity (some "abc")).length = 64 :=
  identity_hash_deterministic_fixed_length "abc" (some "abc") (some "abc") rfl

/-- **C10**: a request carrying no API key is namespaced under the one
fixed identity `sha256("anonymous")` — a constant, so every anonymous
caller shares the same minute-scope and day-scope counter keys. -/
theorem anonymous_identity_shared :
    rateLimitIdentity none = SHA256.sha256hex "anonymous"
    ∧ rateLimitIdentity none
        = "2f183a4e64493af3f377f745eda502363cd3e7ef6e4d266d444758de0a85fcc8"
    ∧ (∀ mb, minuteKey (rateLimitIdentity none) mb
        = "rate_limit:minute:2f183a4e64493af3f377f745eda502363cd3e7ef6e4d266d444758de0a85fcc8:"
          ++ mb)
    ∧ (∀ db, dayKey (rateLimitIdentity none) db
        = "rate_limit:day:2f183a4e64493af3f377f745eda502363cd3e7ef6e4d266d444758de0a85fcc8:"
          ++ db) := by
  have hdig : rateLimitIdentity none
      = "2f183a4e64493af3f377f745eda502363cd3e7ef6e4d266d444758de0a85fcc8" := by
    decide
  refine ⟨rfl, hdig, ?_, ?_⟩
  · intro mb
    rw [minuteKey, hdig]
    rfl
  · intro db
    rw [dayKey, hdig]
    rfl

end RL
